import Mathlib

/-!
Verification development for the AI photo studio application.

Shallow embedding of:
- the Gemini service layer (`services/geminiService.ts`): error translation
  (`handleGeminiError`) and the image-edit call (`editProductImage`);
- the top-level application component (`App.tsx`): upload validation
  (`handleFileUpload`), the prompt-synthesis effect (`updatePrompt`), the
  image-generation handler (`handleGenerateImage`), and the error banner;
- the crop modal (`components/ImageCropModal.tsx`): the crop-and-encode
  pipeline (`getCroppedImg`), the crop state machine (`onImageLoad`, the
  aspect-ratio effect, zoom), and the save handler (`handleSaveClick`).

JavaScript numbers are modelled as rationals (`ℚ`); pixel dimensions of a
decoded bitmap as naturals; `Math.floor` as `Int.floor`.  Asynchronous remote
calls and platform callbacks are modelled by passing their outcome explicitly.
-/

/-! ### Gemini service (`services/geminiService.ts`) -/

/-- An inline data blob in a Gemini response part (`part.inlineData`). -/
structure InlineData where
  data : String
  mimeType : String
deriving DecidableEq

/-- A response part: text and/or inline data (`@google/genai` `Part`). -/
structure GPart where
  text : Option String
  inlineData : Option InlineData
deriving DecidableEq

/-- A response candidate; only its `content.parts` list matters here. -/
structure Candidate where
  parts : List GPart
deriving DecidableEq

/-- Whether the first character list is a prefix of the second. -/
def charPrefix : List Char → List Char → Bool
  | [], _ => true
  | _ :: _, [] => false
  | a :: as, b :: bs => a == b && charPrefix as bs

/-- Whether the first character list occurs inside the second. -/
def charSub (needle : List Char) : List Char → Bool
  | [] => charPrefix needle []
  | h :: t => charPrefix needle (h :: t) || charSub needle t

/-- Lower-cases a string, modelling JavaScript `message.toLowerCase()`. -/
def lowerStr (s : String) : String :=
  ⟨s.data.map Char.toLower⟩

/-- Models JavaScript `s.includes(sub)`: substring occurrence. -/
def strIncludes (s sub : String) : Bool :=
  charSub sub.data s.data

/-- Models JavaScript `s.startsWith(pre)`. -/
def strStarts (s pre : String) : Bool :=
  charPrefix pre.data s.data

/-- The message thrown when the edit response holds no image part. -/
def noImageMsg : String :=
  "The AI model did not return an image. Try adjusting your prompt or using a different image."

/-- Message returned for an invalid API key. -/
def invalidKeyMsg : String :=
  "Invalid API Key. Please check if the API key is configured correctly."

/-- Message returned when the API rate limit is exceeded. -/
def rateLimitMsg : String :=
  "You have exceeded your API request limit. Please wait and try again later."

/-- The generic fallback message of `handleGeminiError`. -/
def unexpectedMsg (context : String) : String :=
  "An unexpected error occurred during " ++ context ++ ". Please check the console for details."

/-- `handleGeminiError` from `services/geminiService.ts`.  The caught value is
modelled by its message string (the `error instanceof Error` branch; a
non-`Error` throw would land in the fallback the same way an unmatched
message does). -/
def handleGeminiError (msg context : String) : String :=
  let lower := lowerStr msg
  if strIncludes lower ("api key not valid") then invalidKeyMsg
  else if strIncludes lower ("rate limit") then rateLimitMsg
  else if strIncludes lower ("did not return an image") then msg
  else unexpectedMsg context

/-- The data-URL assembled for a returned inline image
(`data:<mime>;base64,<payload>`). -/
def toDataUrl (d : InlineData) : String :=
  "data:" ++ d.mimeType ++ ";base64," ++ d.data

/-- The loop condition of `editProductImage`: the part carries inline data
whose MIME type starts with `image/`. -/
def isImagePart (p : GPart) : Bool :=
  match p.inlineData with
  | some d => strStarts d.mimeType ("image/")
  | none => false

/-- The `for` loop of `editProductImage`: return the first image part. -/
def findImagePart : List GPart → Option GPart
  | [] => none
  | p :: rest => if isImagePart p then some p else findImagePart rest

/-- The image URL built from a part (only applied to parts that satisfy
`isImagePart`, whose `inlineData` is present). -/
def partUrl (p : GPart) : String :=
  match p.inlineData with
  | some d => toDataUrl d
  | none => ""

/-- `editProductImage` from `services/geminiService.ts`.  The remote call's
outcome is the `api` argument: `.error m` models `generateContent` throwing
with message `m`, `.ok cands` models a response with candidate list `cands`.
The function scans `response.candidates[0].content.parts` for the first image
part; finding none (or no candidates) throws the no-image error, and every
throw is translated by `handleGeminiError` in the `catch`. -/
def editProductImage (api : Except String (List Candidate)) : Except String String :=
  match api with
  | .error m => .error (handleGeminiError m ("image generation"))
  | .ok cands =>
    match cands with
    | [] => .error (handleGeminiError noImageMsg ("image generation"))
    | c :: _ =>
      match findImagePart c.parts with
      | some p => .ok (partUrl p)
      | none => .error (handleGeminiError noImageMsg ("image generation"))

/-! ### Application component (`App.tsx`) -/

/-- `enum AspectRatio` from `types.ts` (1:1, 3:4, 16:9). -/
inductive AspectChoice
  | SQUARE
  | PORTRAIT
  | LANDSCAPE
deriving DecidableEq

/-- `enum LightingStyle` from `types.ts`. -/
inductive LightingChoice
  | STUDIO_LIGHTING
  | NATURAL
  | CINEMATIC
  | DRAMATIC
  | SOFT
  | HIGH_KEY
deriving DecidableEq

/-- `enum CameraPerspective` from `types.ts`. -/
inductive PerspectiveChoice
  | EYE_LEVEL
  | HIGH_ANGLE
  | LOW_ANGLE
  | CLOSE_UP
  | WIDE_SHOT
  | DUTCH_ANGLE
deriving DecidableEq

/-- `getAspectRatioValue` from `App.tsx`: the numeric ratio of each aspect
choice (the `default` arm of the `switch` is unreachable for the enum). -/
def getAspectValue : AspectChoice → ℚ
  | .SQUARE => 1 / 1
  | .PORTRAIT => 3 / 4
  | .LANDSCAPE => 16 / 9

/-- A base64 image with its MIME type (`{ base64, mimeType }`). -/
structure Image64 where
  base64 : String
  mimeType : String
deriving DecidableEq

/-- The stored original product image (`{ dataUrl, mimeType }`). -/
structure OrigImage where
  dataUrl : String
  mimeType : String
deriving DecidableEq

/-- The state of the `App` component: one field per `useState` hook, in
source order.  `aspectChoice`, `lightingChoice`, `perspectiveChoice` embed the
`aspectRatio`, `lightingStyle`, `cameraPerspective` hooks. -/
structure AppState where
  productImage : Option Image64
  originalProductImage : Option OrigImage
  isCropModalOpen : Bool
  styleReferenceImage : Option Image64
  aspectChoice : AspectChoice
  lightingChoice : LightingChoice
  perspectiveChoice : PerspectiveChoice
  prompt : String
  generatedImage : Option String
  isGeneratingPrompt : Bool
  isGeneratingImage : Bool
  error : Option String
deriving DecidableEq

/-- `MAX_FILE_SIZE_MB` from `App.tsx`. -/
def MAX_FILE_SIZE_MB : ℕ := 10

/-- `MAX_FILE_SIZE_BYTES` from `App.tsx`. -/
def MAX_FILE_SIZE_BYTES : ℕ := MAX_FILE_SIZE_MB * 1024 * 1024

/-- `SUPPORTED_MIME_TYPES` from `App.tsx`. -/
def SUPPORTED_MIME_TYPES : List String :=
  [ "image/jpeg", "image/png", "image/webp" ]

/-- The upload kind argument of `handleFileUpload` (`'product' | 'style'`). -/
inductive UploadKind
  | product
  | style
deriving DecidableEq

/-- The string interpolated into the load-failure message. -/
def uploadKindName : UploadKind → String
  | .product => "product"
  | .style => "style"

/-- An uploaded `File`: declared MIME type (`file.type`, renamed since `type`
is a keyword) and size in bytes. -/
structure UFile where
  mime : String
  size : ℕ
deriving DecidableEq

/-- The unsupported-type error message of `handleFileUpload`. -/
def unsupportedTypeMsg : String :=
  "Unsupported file type. Please upload a JPEG, PNG, or WEBP image."

/-- The too-large error message of `handleFileUpload` (with
`${MAX_FILE_SIZE_MB}` interpolated). -/
def tooLargeMsg : String :=
  "File is too large. Please upload an image smaller than " ++ toString (MAX_FILE_SIZE_MB) ++ "MB."

/-- `handleFileUpload` from `App.tsx`.  `read` is the outcome of the awaited
`fileToBase64(file)`: `.ok b64` resolves with the base64 payload, `.error m`
models the `FileReader` rejecting with message `m` (caught by the `catch`).
The handler first clears the error, then validates MIME type and size before
any read, and on success stores the image according to the upload kind. -/
def handleFileUpload (s : AppState) (f : UFile) (k : UploadKind)
    (read : Except String String) : AppState :=
  let s0 := { s with error := none }
  if (SUPPORTED_MIME_TYPES.contains f.mime) = false then
    { s0 with error := some unsupportedTypeMsg }
  else if MAX_FILE_SIZE_BYTES < f.size then
    { s0 with error := some tooLargeMsg }
  else
    match read with
    | .ok b64 =>
      match k with
      | .product =>
        { s0 with
          originalProductImage := some ⟨"data:" ++ f.mime ++ ";base64," ++ b64, f.mime⟩,
          productImage := none,
          isCropModalOpen := true }
      | .style =>
        { s0 with styleReferenceImage := some ⟨b64, f.mime⟩ }
    | .error m =>
      { s0 with error := some ("Error loading " ++ uploadKindName k ++ " image: " ++ m ++ ". Please try a different file.") }

/-- `handleCropSave` from `App.tsx`. -/
def handleCropSave (s : AppState) (cropped : Image64) : AppState :=
  { s with productImage := some cropped, isCropModalOpen := false }

/-- `handleClearStyleImage` from `App.tsx`. -/
def handleClearStyleImage (s : AppState) : AppState :=
  { s with styleReferenceImage := none }

/-- The error banner's dismiss button (`onClick={() => setError(null)}`). -/
def dismissError (s : AppState) : AppState :=
  { s with error := none }

/-- Fallback message of the prompt-synthesis effect. -/
def promptFallbackMsg : String :=
  "An unknown error occurred while generating the prompt."

/-- The `updatePrompt` body of the settings `useEffect` in `App.tsx`.
`outcome` is the result of the awaited `generateDescriptivePrompt` call; the
`.error` branch applies JavaScript `error.message || fallback` (empty message
falls back). -/
def updatePrompt (s : AppState) (outcome : Except String String) : AppState :=
  let s0 := { s with isGeneratingPrompt := true, error := none }
  match outcome with
  | .ok p => { s0 with prompt := p, isGeneratingPrompt := false }
  | .error m =>
    { s0 with
      error := some (if m = "" then promptFallbackMsg else m),
      isGeneratingPrompt := false }

/-- The guard message of `handleGenerateImage`. -/
def genGuardMsg : String :=
  "Please upload and crop a product image, and ensure a prompt is generated."

/-- Fallback message of `handleGenerateImage`. -/
def imageFallbackMsg : String :=
  "An unknown error occurred while generating the image."

/-- `handleGenerateImage` from `App.tsx`.  `outcome` is the result of the
awaited `editProductImage` call.  The guard `!productImage || !prompt` only
sets the error; otherwise the handler sets the busy flag, clears the error
and the previously generated image, then stores the result or the error
message (`error.message || fallback`), and clears the busy flag. -/
def handleGenerateImage (s : AppState) (outcome : Except String String) : AppState :=
  match s.productImage with
  | none => { s with error := some genGuardMsg }
  | some _ =>
    if s.prompt = "" then { s with error := some genGuardMsg }
    else
      let s0 := { s with isGeneratingImage := true, error := none, generatedImage := none }
      match outcome with
      | .ok img => { s0 with generatedImage := some img, isGeneratingImage := false }
      | .error m =>
        { s0 with
          error := some (if m = "" then imageFallbackMsg else m),
          isGeneratingImage := false }

/-! ### Crop modal (`components/ImageCropModal.tsx`) -/

/-- The `HTMLImageElement` fields read by `getCroppedImg`: the natural
(decoded) pixel dimensions and the rendered (displayed) dimensions. -/
structure ImageElement where
  naturalWidth : ℕ
  naturalHeight : ℕ
  width : ℚ
  height : ℚ
deriving DecidableEq

/-- A crop rectangle `{x, y, width, height}` (react-image-crop `Crop` without
the unit tag; `getCroppedImg` reads the four numbers as they stand). -/
structure CropRect where
  x : ℚ
  y : ℚ
  width : ℚ
  height : ℚ
deriving DecidableEq

/-- The rejection reasons of `getCroppedImg`, one per `reject` site:
`contextUnavailable` is the message "Could not get canvas context",
`canvasEmpty` is "Canvas is empty" (the `toBlob` callback received `null`),
`readFailed` collapses the two `FileReader` rejections. -/
inductive CropError
  | contextUnavailable
  | canvasEmpty
  | readFailed
deriving DecidableEq

/-- The browser services `getCroppedImg` relies on: whether
`canvas.getContext('2d')` yields a context, whether serialization of a
non-empty canvas yields a blob, whether the `FileReader` succeeds, and the
base64 payload it produces. -/
structure CanvasEnv where
  contextAvailable : Bool
  encodeOk : Bool
  readOk : Bool
  encoded : String
deriving DecidableEq

/-- The result of a successful `getCroppedImg` run: the output canvas size
(`Math.floor` of the scaled crop), the source region handed to `drawImage`,
and the resolved `{ base64, mimeType }`. -/
structure CroppedResult where
  canvasWidth : ℤ
  canvasHeight : ℤ
  srcX : ℚ
  srcY : ℚ
  srcW : ℚ
  srcH : ℚ
  base64 : String
  mimeType : String
deriving DecidableEq

/-- `getCroppedImg` from `components/ImageCropModal.tsx`.
`scaleX = naturalWidth / width`, `scaleY = naturalHeight / height`; the canvas
is sized to `Math.floor(crop.width * scaleX) × Math.floor(crop.height * scaleY)`
and `drawImage` copies the region
`(crop.x·scaleX, crop.y·scaleY, crop.width·scaleX, crop.height·scaleY)`.
Modelled from the spec: the browser's `canvas.toBlob` hands the callback
`null` when the canvas has no pixels (a zero dimension) or when serialization
produces no output (the spec's `EncodeFailed` case), which the source rejects
as "Canvas is empty"; `env.encodeOk` models the latter. -/
def getCroppedImg (env : CanvasEnv) (image : ImageElement) (crop : CropRect)
    (mimeType : String) : Except CropError CroppedResult :=
  let scaleX : ℚ := (image.naturalWidth : ℚ) / image.width
  let scaleY : ℚ := (image.naturalHeight : ℚ) / image.height
  let cw : ℤ := ⌊crop.width * scaleX⌋
  let ch : ℤ := ⌊crop.height * scaleY⌋
  if env.contextAvailable = false then
    .error .contextUnavailable
  else if cw ≤ 0 ∨ ch ≤ 0 ∨ env.encodeOk = false then
    .error .canvasEmpty
  else if env.readOk = false then
    .error .readFailed
  else
    .ok
      { canvasWidth := cw
        canvasHeight := ch
        srcX := crop.x * scaleX
        srcY := crop.y * scaleY
        srcW := crop.width * scaleX
        srcH := crop.height * scaleY
        base64 := env.encoded
        mimeType := mimeType }

/-- Modelled from the spec: react-image-crop's `makeAspectCrop` applied to
`{unit: '%', width: 90}` with the given aspect and the image's natural
dimensions as container — the library's source is not part of this
repository.  Per the spec it yields the largest rectangle with the target
aspect ratio that fits within 90% of the image's extent: pixel width
`min(0.9·nW, 0.9·nH·aspect)`, pixel height `width/aspect`, expressed in
percent units. -/
def makeAspectCrop90 (aspect nW nH : ℚ) : CropRect :=
  let pw := min ((9 / 10) * nW) ((9 / 10) * nH * aspect)
  { x := 0, y := 0, width := 100 * pw / nW, height := 100 * (pw / aspect) / nH }

/-- Modelled from the spec: react-image-crop's `centerCrop` for a percent
crop — centers the rectangle in the container. -/
def centerCropPct (c : CropRect) : CropRect :=
  { c with x := (100 - c.width) / 2, y := (100 - c.height) / 2 }

/-- The centered initial crop computed on image load and on aspect change. -/
def initialCrop (aspect nW nH : ℚ) : CropRect :=
  centerCropPct (makeAspectCrop90 aspect nW nH)

/-- The state of the `ImageCropModal` component: the crop (percent units,
`undefined` before initialization), the saving flag, the zoom scale, and the
displayed image size captured at load (`imgSize`). -/
structure ModalState where
  crop : Option CropRect
  isSaving : Bool
  scale : ℚ
  imgW : ℚ
  imgH : ℚ
deriving DecidableEq

/-- `onImageLoad` from `ImageCropModal.tsx`: records the rendered size, and
when both natural dimensions are positive installs the centered 90%
aspect-locked crop; otherwise the crop state is left as it was. -/
def onImageLoad (s : ModalState) (aspect width height nW nH : ℚ) : ModalState :=
  let s0 := { s with imgW := width, imgH := height }
  if 0 < nW ∧ 0 < nH then
    { s0 with crop := some (centerCropPct (makeAspectCrop90 aspect nW nH)) }
  else s0

/-- The `useEffect` on `[aspect]` in `ImageCropModal.tsx`: when the image
element exists (`loaded`) and its natural dimensions are positive, the crop
is recomputed exactly as in `onImageLoad`; otherwise nothing changes. -/
def aspectEffect (s : ModalState) (loaded : Bool) (aspect nW nH : ℚ) : ModalState :=
  if loaded = true ∧ 0 < nW ∧ 0 < nH then
    { s with crop := some (centerCropPct (makeAspectCrop90 aspect nW nH)) }
  else s

/-- The `ReactCrop` `onChange` handler: the user-adjusted rectangle replaces
the crop state directly. -/
def onDragChange (s : ModalState) (c : CropRect) : ModalState :=
  { s with crop := some c }

/-- The zoom slider's `onChange` (`setScale`). -/
def onZoomChange (s : ModalState) (z : ℚ) : ModalState :=
  { s with scale := z }

/-- The rendered image width after load: the `style` sets
`width: imgSize.width * scale`. -/
def displayedWidth (s : ModalState) : ℚ :=
  s.imgW * s.scale

/-- The rendered image height after load: the `style` sets
`height: imgSize.height * scale`. -/
def displayedHeight (s : ModalState) : ℚ :=
  s.imgH * s.scale

/-- The `HTMLImageElement` the modal hands to `getCroppedImg`: natural
dimensions of the loaded bitmap, rendered dimensions per the zoomed style. -/
def modalImageElement (s : ModalState) (nW nH : ℕ) : ImageElement :=
  { naturalWidth := nW, naturalHeight := nH,
    width := displayedWidth s, height := displayedHeight s }

/-- The `scaleX` computed by `getCroppedImg` for an image element. -/
def scaleXof (image : ImageElement) : ℚ :=
  (image.naturalWidth : ℚ) / image.width

/-- The `scaleY` computed by `getCroppedImg` for an image element. -/
def scaleYof (image : ImageElement) : ℚ :=
  (image.naturalHeight : ℚ) / image.height

/-- `handleSaveClick` from `ImageCropModal.tsx` combined with the `onSave`
callback (`handleCropSave` in `App.tsx`).  The guard
`imgRef.current && crop?.width && crop?.height` skips falsy (zero or missing)
dimensions.  On success the cropped image is saved and the modal closed; on
failure the `catch` only logs to the console (`console.error('Cropping
failed', e)`) and the application state is left untouched. -/
def handleSaveClick (app : AppState) (s : ModalState) (nW nH : ℕ)
    (env : CanvasEnv) (mimeType : String) : AppState :=
  match s.crop with
  | none => app
  | some c =>
    if c.width = 0 ∨ c.height = 0 then app
    else
      match getCroppedImg env (modalImageElement s nW nH) c mimeType with
      | .ok r => handleCropSave app ⟨r.base64, r.mimeType⟩
      | .error _ => app

/-! ### Theorems -/

/-- The initial `App` state: the initial value of each `useState` hook. -/
def initialAppState : AppState :=
  { productImage := none, originalProductImage := none, isCropModalOpen := false,
    styleReferenceImage := none, aspectChoice := .SQUARE, lightingChoice := .STUDIO_LIGHTING,
    perspectiveChoice := .EYE_LEVEL, prompt := "", generatedImage := none,
    isGeneratingPrompt := false, isGeneratingImage := false, error := none }

/-- C6: an upload is accepted exactly when the declared MIME type is one of
image/jpeg, image/png, image/webp and the size is at most 10 MiB
(`MAX_FILE_SIZE_BYTES`); an unsupported type is rejected with the
unsupported-type message, an oversize file with the too-large message, and an
accepted product upload actually proceeds (original image stored, crop modal
opened; a style upload stores the style image). -/
theorem upload_validation (s : AppState) (f : UFile) (k : UploadKind) (b64 : String) :
    ((handleFileUpload s f k (.ok b64)).error = none ↔
      (SUPPORTED_MIME_TYPES.contains f.mime = true ∧ f.size ≤ MAX_FILE_SIZE_BYTES)) ∧
    (SUPPORTED_MIME_TYPES.contains f.mime = false →
      (handleFileUpload s f k (.ok b64)).error = some unsupportedTypeMsg) ∧
    (SUPPORTED_MIME_TYPES.contains f.mime = true → MAX_FILE_SIZE_BYTES < f.size →
      (handleFileUpload s f k (.ok b64)).error = some tooLargeMsg) ∧
    (SUPPORTED_MIME_TYPES.contains f.mime = true → f.size ≤ MAX_FILE_SIZE_BYTES →
      (handleFileUpload s f .product (.ok b64)).isCropModalOpen = true ∧
      (handleFileUpload s f .product (.ok b64)).originalProductImage =
        some ⟨"data:" ++ f.mime ++ ";base64," ++ b64, f.mime⟩ ∧
      (handleFileUpload s f .style (.ok b64)).styleReferenceImage = some ⟨b64, f.mime⟩) := by
  cases hc : SUPPORTED_MIME_TYPES.contains f.mime with
  | false =>
    have hm : f.mime ∉ SUPPORTED_MIME_TYPES := by simpa using hc
    cases k <;> simp [handleFileUpload, hc, hm]
  | true =>
    have hm : f.mime ∈ SUPPORTED_MIME_TYPES := by simpa using hc
    by_cases hs : f.size ≤ MAX_FILE_SIZE_BYTES
    · have hns : ¬ (MAX_FILE_SIZE_BYTES < f.size) := by omega
      cases k <;> simp [handleFileUpload, hc, hm, hns, hs]
    · have hlt : MAX_FILE_SIZE_BYTES < f.size := by omega
      cases k <;> simp [handleFileUpload, hc, hm, hlt, hs]

/-- Witness for `upload_validation`: a 15 MiB JPEG is rejected as too large
and a 5 MiB JPEG is accepted. -/
theorem upload_validation_witness :
    (handleFileUpload initialAppState ⟨"image/jpeg", 15 * 1024 * 1024⟩ .product (.ok ("QUJD"))).error = some tooLargeMsg ∧
    (handleFileUpload initialAppState ⟨"image/jpeg", 5 * 1024 * 1024⟩ .product (.ok ("QUJD"))).error = none :=
  ⟨(upload_validation initialAppState ⟨"image/jpeg", 15 * 1024 * 1024⟩ .product ("QUJD")).2.2.1
      (by decide) (by decide),
   (upload_validation initialAppState ⟨"image/jpeg", 5 * 1024 * 1024⟩ .product ("QUJD")).1.mpr
      ⟨by decide, by decide⟩⟩

/-- C10: a rejected product or style upload (unsupported MIME type or size
over the limit) changes none of the image state — product image, original
product image, style reference image, prompt, generated image, and the
remaining fields are exactly as before — and only the error message is set. -/
theorem upload_rejection_frame (s : AppState) (f : UFile) (k : UploadKind)
    (read : Except String String)
    (h : SUPPORTED_MIME_TYPES.contains f.mime = false ∨ MAX_FILE_SIZE_BYTES < f.size) :
    (handleFileUpload s f k read).productImage = s.productImage ∧
    (handleFileUpload s f k read).originalProductImage = s.originalProductImage ∧
    (handleFileUpload s f k read).styleReferenceImage = s.styleReferenceImage ∧
    (handleFileUpload s f k read).prompt = s.prompt ∧
    (handleFileUpload s f k read).generatedImage = s.generatedImage ∧
    (handleFileUpload s f k read).isCropModalOpen = s.isCropModalOpen ∧
    (handleFileUpload s f k read).aspectChoice = s.aspectChoice ∧
    (handleFileUpload s f k read).lightingChoice = s.lightingChoice ∧
    (handleFileUpload s f k read).perspectiveChoice = s.perspectiveChoice ∧
    (handleFileUpload s f k read).isGeneratingPrompt = s.isGeneratingPrompt ∧
    (handleFileUpload s f k read).isGeneratingImage = s.isGeneratingImage ∧
    (∃ m, (handleFileUpload s f k read).error = some m) := by
  cases hc : SUPPORTED_MIME_TYPES.contains f.mime with
  | false =>
    have hm : f.mime ∉ SUPPORTED_MIME_TYPES := by simpa using hc
    simp [handleFileUpload, hc, hm]
  | true =>
    have hm : f.mime ∈ SUPPORTED_MIME_TYPES := by simpa using hc
    have hlt : MAX_FILE_SIZE_BYTES < f.size := by
      rcases h with h | h
      · rw [hc] at h; exact absurd h (by simp)
      · exact h
    simp [handleFileUpload, hc, hm, hlt]

/-- A populated application state used to exercise the frame conditions. -/
def busyAppState : AppState :=
  { productImage := some ⟨"UHJvZA==", "image/png"⟩,
    originalProductImage := some ⟨"data:image/png;base64,T3JpZw==", "image/png"⟩,
    isCropModalOpen := false,
    styleReferenceImage := some ⟨"U3R5bGU=", "image/webp"⟩,
    aspectChoice := .LANDSCAPE, lightingChoice := .CINEMATIC,
    perspectiveChoice := .LOW_ANGLE,
    prompt := "studio prompt",
    generatedImage := some ("data:image/png;base64,T0xE"),
    isGeneratingPrompt := false, isGeneratingImage := false, error := none }

/-- Witness for `upload_rejection_frame`: a GIF upload is rejected and leaves
the populated state intact apart from the error message. -/
theorem upload_rejection_frame_witness :
    (handleFileUpload busyAppState ⟨"image/gif", 100⟩ .product (.ok ("QUJD"))).productImage = busyAppState.productImage ∧
    (handleFileUpload busyAppState ⟨"image/gif", 100⟩ .product (.ok ("QUJD"))).originalProductImage = busyAppState.originalProductImage ∧
    (handleFileUpload busyAppState ⟨"image/gif", 100⟩ .product (.ok ("QUJD"))).styleReferenceImage = busyAppState.styleReferenceImage ∧
    (handleFileUpload busyAppState ⟨"image/gif", 100⟩ .product (.ok ("QUJD"))).prompt = busyAppState.prompt ∧
    (handleFileUpload busyAppState ⟨"image/gif", 100⟩ .product (.ok ("QUJD"))).generatedImage = busyAppState.generatedImage ∧
    (handleFileUpload busyAppState ⟨"image/gif", 100⟩ .product (.ok ("QUJD"))).isCropModalOpen = busyAppState.isCropModalOpen ∧
    (handleFileUpload busyAppState ⟨"image/gif", 100⟩ .product (.ok ("QUJD"))).aspectChoice = busyAppState.aspectChoice ∧
    (handleFileUpload busyAppState ⟨"image/gif", 100⟩ .product (.ok ("QUJD"))).lightingChoice = busyAppState.lightingChoice ∧
    (handleFileUpload busyAppState ⟨"image/gif", 100⟩ .product (.ok ("QUJD"))).perspectiveChoice = busyAppState.perspectiveChoice ∧
    (handleFileUpload busyAppState ⟨"image/gif", 100⟩ .product (.ok ("QUJD"))).isGeneratingPrompt = busyAppState.isGeneratingPrompt ∧
    (handleFileUpload busyAppState ⟨"image/gif", 100⟩ .product (.ok ("QUJD"))).isGeneratingImage = busyAppState.isGeneratingImage ∧
    (∃ m, (handleFileUpload busyAppState ⟨"image/gif", 100⟩ .product (.ok ("QUJD"))).error = some m) :=
  upload_rejection_frame busyAppState ⟨"image/gif", 100⟩ .product (.ok ("QUJD"))
    (Or.inl (by decide))

/-- C1 counterexample: with a generated image on display, a failing
`editProductImage` call does NOT leave it displayed — `handleGenerateImage`
clears it (`setGeneratedImage(null)` runs before the call), so after the
failure the generated image is `none` rather than the prior value. -/
theorem generate_failure_clears_image :
    busyAppState.generatedImage = some ("data:image/png;base64,T0xE") ∧
    (handleGenerateImage busyAppState (.error noImageMsg)).generatedImage = none ∧
    (handleGenerateImage busyAppState (.error noImageMsg)).error = some noImageMsg := by
  refine ⟨rfl, ?_, ?_⟩ <;> decide

/-- C1 amended: a failing `editProductImage` call clears the previously
generated image (it is reset to `null` before the call starts), leaves the
prompt and the product/original/style images untouched, sets the error
message, and clears the busy flag. -/
theorem generate_failure_state (s : AppState) (p : Image64) (m : String)
    (hp : s.productImage = some p) (hq : s.prompt ≠ "") :
    (handleGenerateImage s (.error m)).generatedImage = none ∧
    (handleGenerateImage s (.error m)).prompt = s.prompt ∧
    (handleGenerateImage s (.error m)).productImage = s.productImage ∧
    (handleGenerateImage s (.error m)).originalProductImage = s.originalProductImage ∧
    (handleGenerateImage s (.error m)).styleReferenceImage = s.styleReferenceImage ∧
    (handleGenerateImage s (.error m)).error = some (if m = "" then imageFallbackMsg else m) ∧
    (handleGenerateImage s (.error m)).isGeneratingImage = false := by
  simp [handleGenerateImage, hp, hq]

/-- Witness for `generate_failure_state` at a populated state and a concrete
failure message. -/
theorem generate_failure_state_witness :
    (handleGenerateImage busyAppState (.error ("boom"))).generatedImage = none ∧
    (handleGenerateImage busyAppState (.error ("boom"))).prompt = busyAppState.prompt ∧
    (handleGenerateImage busyAppState (.error ("boom"))).productImage = busyAppState.productImage ∧
    (handleGenerateImage busyAppState (.error ("boom"))).originalProductImage = busyAppState.originalProductImage ∧
    (handleGenerateImage busyAppState (.error ("boom"))).styleReferenceImage = busyAppState.styleReferenceImage ∧
    (handleGenerateImage busyAppState (.error ("boom"))).error = some ("boom") ∧
    (handleGenerateImage busyAppState (.error ("boom"))).isGeneratingImage = false :=
  generate_failure_state busyAppState ⟨"UHJvZA==", "image/png"⟩ "boom" rfl (by decide)

/-- The no-image message survives `handleGeminiError` untouched (the
"did not return an image" branch keeps the specific error). -/
theorem noImage_kept : handleGeminiError noImageMsg ("image generation") = noImageMsg := by
  decide

/-- `findImagePart` returns `none` on a list with no image part. -/
theorem findImagePart_eq_none (l : List GPart)
    (h : ∀ p ∈ l, isImagePart p = false) : findImagePart l = none := by
  induction l with
  | nil => rfl
  | cons p rest ih =>
    have hp : isImagePart p = false := h p (by simp)
    simp [findImagePart, hp]
    exact ih fun q hq => h q (by simp [hq])

/-- `findImagePart` returns the first image part of the list. -/
theorem findImagePart_eq_first (l : List GPart) (i : ℕ) (hi : i < l.length)
    (him : isImagePart (l.get ⟨i, hi⟩) = true)
    (hprev : ((l.take i).all fun p => !(isImagePart p)) = true) :
    findImagePart l = some (l.get ⟨i, hi⟩) := by
  induction l generalizing i with
  | nil => exact absurd hi (by simp)
  | cons p rest ih =>
    cases i with
    | zero =>
      show findImagePart (p :: rest) = some p
      have hp : isImagePart p = true := him
      simp [findImagePart, hp]
    | succ n =>
      have hlen : n < rest.length := by simpa using hi
      have hsplit := hprev
      simp [List.take_succ_cons, List.all_cons] at hsplit
      have hp : isImagePart p = false := hsplit.1
      have hgot : isImagePart (rest.get ⟨n, hlen⟩) = true := him
      show findImagePart (p :: rest) = some (rest.get ⟨n, hlen⟩)
      rw [show findImagePart (p :: rest) = findImagePart rest from by
        simp [findImagePart, hp]]
      exact ih n hlen hgot (by simpa using hsplit.2)

/-- A text-only response part. -/
def textPart : GPart := ⟨some ("hello"), none⟩

/-- A PNG image response part. -/
def pngPart : GPart := ⟨none, some ⟨"QUJD", "image/png"⟩⟩

/-- C7 counterexample: a response whose first candidate carries no image part
but whose second candidate does.  The response contains an image part, yet
`editProductImage` fails with the no-image error instead of returning it —
the source only scans `response.candidates[0]`. -/
theorem edit_skips_later_candidates :
    (([⟨[textPart]⟩, ⟨[pngPart]⟩] : List Candidate).any fun c => c.parts.any isImagePart) = true ∧
    editProductImage (.ok [⟨[textPart]⟩, ⟨[pngPart]⟩]) = .error noImageMsg := by
  constructor
  · decide
  · show Except.error (handleGeminiError noImageMsg ("image generation")) = _
    rw [noImage_kept]

/-- C7 amended: only the first candidate of the response is searched.  The
first image part of the first candidate's part list is returned as a data
URL; if the first candidate has no image part — or there are no candidates —
the call fails with the reported no-image error rather than returning
silently. -/
theorem edit_first_candidate_spec :
    (editProductImage (.ok []) = .error noImageMsg) ∧
    (∀ (c : Candidate) (cs : List Candidate),
      (c.parts.all fun p => !(isImagePart p)) = true →
      editProductImage (.ok (c :: cs)) = .error noImageMsg) ∧
    (∀ (c : Candidate) (cs : List Candidate) (i : ℕ) (hi : i < c.parts.length),
      isImagePart (c.parts.get ⟨i, hi⟩) = true →
      ((c.parts.take i).all fun p => !(isImagePart p)) = true →
      editProductImage (.ok (c :: cs)) = .ok (partUrl (c.parts.get ⟨i, hi⟩))) := by
  refine ⟨by simp [editProductImage, noImage_kept], ?_, ?_⟩
  · intro c cs hall
    have hnone : findImagePart c.parts = none := by
      refine findImagePart_eq_none c.parts fun p hp => ?_
      have := List.all_eq_true.mp hall p hp
      simpa using this
    simp [editProductImage, hnone, noImage_kept]
  · intro c cs i hi him hprev
    have hfind := findImagePart_eq_first c.parts i hi him hprev
    simp [editProductImage, hfind]

/-- Witness for `edit_first_candidate_spec`: a single candidate whose second
part is the first image part; the call returns its data URL. -/
theorem edit_first_candidate_spec_witness :
    editProductImage (.ok [⟨[textPart, pngPart]⟩]) = .ok (partUrl pngPart) :=
  edit_first_candidate_spec.2.2 ⟨[textPart, pngPart]⟩ [] 1 (by decide) (by decide) (by decide)

/-- The modal state at the moment of a save attempt: a user-adjusted crop on
a 100×100 image rendered at 100×100, zoom 1. -/
def saveModalState : ModalState :=
  { crop := some ⟨0, 0, 50, 50⟩, isSaving := false, scale := 1, imgW := 100, imgH := 100 }

/-- A browser environment where `canvas.getContext('2d')` yields no context. -/
def noContextEnv : CanvasEnv := ⟨false, true, true, "ZW5j"⟩

/-- C9 counterexample: the crop-and-encode save path can fail with only
console logging.  `getCroppedImg` rejects, yet `handleSaveClick` returns the
application state unchanged: no error message is set, so no banner is shown
(the `catch` in the source only runs `console.error`). -/
theorem crop_save_failure_silent :
    getCroppedImg noContextEnv (modalImageElement saveModalState 100 100) ⟨0, 0, 50, 50⟩ ("image/png") = .error .contextUnavailable ∧
    handleSaveClick busyAppState saveModalState 100 100 noContextEnv ("image/png") = busyAppState ∧
    busyAppState.error = none :=
  ⟨rfl, rfl, rfl⟩

/-- C9 amended: every upload failure path (unsupported MIME type, oversize
file, and file-read failure), a prompt-synthesis failure, and an image-edit
failure all surface as the top-level banner (the error state is set to a
human-readable message, and the banner's dismiss control clears it), but a
crop-and-encode save failure does not: it is only console-logged, the
application state is returned unchanged, and no message is set. -/
theorem error_surfacing (s : AppState) (f : UFile) (k : UploadKind)
    (read : Except String String) (m : String) (p : Image64)
    (ms : ModalState) (nW nH : ℕ) (env : CanvasEnv) (mt : String)
    (e : CropError) (c : CropRect) :
    (SUPPORTED_MIME_TYPES.contains f.mime = false →
      (handleFileUpload s f k read).error = some unsupportedTypeMsg) ∧
    (SUPPORTED_MIME_TYPES.contains f.mime = true → MAX_FILE_SIZE_BYTES < f.size →
      (handleFileUpload s f k read).error = some tooLargeMsg) ∧
    (SUPPORTED_MIME_TYPES.contains f.mime = true → f.size ≤ MAX_FILE_SIZE_BYTES →
      (handleFileUpload s f k (.error m)).error =
        some ("Error loading " ++ uploadKindName k ++ " image: " ++ m ++ ". Please try a different file.")) ∧
    ((updatePrompt s (.error m)).error = some (if m = "" then promptFallbackMsg else m)) ∧
    (s.productImage = some p → s.prompt ≠ "" →
      (handleGenerateImage s (.error m)).error = some (if m = "" then imageFallbackMsg else m)) ∧
    ((dismissError s).error = none) ∧
    (ms.crop = some c → ¬(c.width = 0 ∨ c.height = 0) →
      getCroppedImg env (modalImageElement ms nW nH) c mt = .error e →
      handleSaveClick s ms nW nH env mt = s) := by
  refine ⟨?_, ?_, ?_, ?_, ?_, rfl, ?_⟩
  · intro hc
    have hm : f.mime ∉ SUPPORTED_MIME_TYPES := by simpa using hc
    simp [handleFileUpload, hc, hm]
  · intro hc hlt
    have hm : f.mime ∈ SUPPORTED_MIME_TYPES := by simpa using hc
    simp [handleFileUpload, hc, hm, hlt]
  · intro hc hle
    have hm : f.mime ∈ SUPPORTED_MIME_TYPES := by simpa using hc
    have hns : ¬ (MAX_FILE_SIZE_BYTES < f.size) := by omega
    cases k <;> simp [handleFileUpload, hc, hm, hns, uploadKindName]
  · simp [updatePrompt]
  · intro hp hq
    simp [handleGenerateImage, hp, hq]
  · intro hcrop hwh hfail
    simp [handleSaveClick, hcrop, hwh, hfail]

/-- Witness for `error_surfacing` at concrete inputs: a rejected GIF upload,
a rejected 15 MiB JPEG upload, a failed style-image read, a failed prompt
synthesis, a failed image edit, a banner dismissal, and a silently failing
save. -/
theorem error_surfacing_witness :
    (handleFileUpload busyAppState ⟨"image/gif", 100⟩ .product (.ok ("QUJD"))).error = some unsupportedTypeMsg ∧
    (handleFileUpload busyAppState ⟨"image/jpeg", 15 * 1024 * 1024⟩ .product (.ok ("QUJD"))).error = some tooLargeMsg ∧
    (handleFileUpload busyAppState ⟨"image/jpeg", 100⟩ .style (.error ("read aborted"))).error =
      some ("Error loading style image: read aborted. Please try a different file.") ∧
    (updatePrompt busyAppState (.error ("boom"))).error = some ("boom") ∧
    (handleGenerateImage busyAppState (.error ("boom"))).error = some ("boom") ∧
    (dismissError busyAppState).error = none ∧
    handleSaveClick busyAppState saveModalState 100 100 noContextEnv ("image/png") = busyAppState :=
  let T1 := error_surfacing busyAppState ⟨"image/gif", 100⟩ .product (.ok ("QUJD")) ("boom")
    ⟨"UHJvZA==", "image/png"⟩ saveModalState 100 100 noContextEnv ("image/png")
    .contextUnavailable ⟨0, 0, 50, 50⟩
  let T2 := error_surfacing busyAppState ⟨"image/jpeg", 15 * 1024 * 1024⟩ .product (.ok ("QUJD")) ("boom")
    ⟨"UHJvZA==", "image/png"⟩ saveModalState 100 100 noContextEnv ("image/png")
    .contextUnavailable ⟨0, 0, 50, 50⟩
  let T3 := error_surfacing busyAppState ⟨"image/jpeg", 100⟩ .style (.ok ("QUJD")) ("read aborted")
    ⟨"UHJvZA==", "image/png"⟩ saveModalState 100 100 noContextEnv ("image/png")
    .contextUnavailable ⟨0, 0, 50, 50⟩
  ⟨T1.1 (by decide), T2.2.1 (by decide) (by decide), T3.2.2.1 (by decide) (by decide),
    T1.2.2.2.1, T1.2.2.2.2.1 rfl (by decide), T1.2.2.2.2.2.1,
    T1.2.2.2.2.2.2 rfl (by decide) rfl⟩

/-- A successful run of `getCroppedImg`: when the context is available, the
floored output dimensions are positive, encoding and reading succeed, the
result is exactly the scaled-and-floored crop. -/
theorem getCroppedImg_ok (env : CanvasEnv) (img : ImageElement) (crop : CropRect)
    (mt : String)
    (hctx : env.contextAvailable = true) (henc : env.encodeOk = true)
    (hread : env.readOk = true)
    (hcw : 0 < ⌊crop.width * scaleXof img⌋) (hch : 0 < ⌊crop.height * scaleYof img⌋) :
    getCroppedImg env img crop mt = .ok
      { canvasWidth := ⌊crop.width * scaleXof img⌋
        canvasHeight := ⌊crop.height * scaleYof img⌋
        srcX := crop.x * scaleXof img
        srcY := crop.y * scaleYof img
        srcW := crop.width * scaleXof img
        srcH := crop.height * scaleYof img
        base64 := env.encoded
        mimeType := mt } := by
  simp only [scaleXof, scaleYof] at hcw hch ⊢
  have h2 : ¬(⌊crop.width * ((img.naturalWidth : ℚ) / img.width)⌋ ≤ 0 ∨
      ⌊crop.height * ((img.naturalHeight : ℚ) / img.height)⌋ ≤ 0 ∨
      env.encodeOk = false) := by
    rintro (h | h | h)
    · exact absurd h (not_le.mpr hcw)
    · exact absurd h (not_le.mpr hch)
    · rw [henc] at h; exact absurd h (by simp)
  simp only [getCroppedImg]
  rw [if_neg (by simp [hctx]), if_neg h2, if_neg (by simp [hread])]

/-- C2: `getCroppedImg` maps the crop rectangle from displayed space to
natural space with `scaleX = naturalWidth/width` and
`scaleY = naturalHeight/height`, floors the output width and height, and
copies exactly the region `(x·scaleX, y·scaleY, w·scaleX, h·scaleY)`; a crop
covering the full displayed image yields an output whose pixel dimensions
equal the source's natural dimensions. -/
theorem getCroppedImg_scale_spec (env : CanvasEnv) (img : ImageElement)
    (crop : CropRect) (mt : String)
    (hctx : env.contextAvailable = true) (henc : env.encodeOk = true)
    (hread : env.readOk = true) (hw : 0 < img.width) (hh : 0 < img.height) :
    ((0 < ⌊crop.width * scaleXof img⌋ → 0 < ⌊crop.height * scaleYof img⌋ →
      getCroppedImg env img crop mt = .ok
        { canvasWidth := ⌊crop.width * scaleXof img⌋
          canvasHeight := ⌊crop.height * scaleYof img⌋
          srcX := crop.x * scaleXof img
          srcY := crop.y * scaleYof img
          srcW := crop.width * scaleXof img
          srcH := crop.height * scaleYof img
          base64 := env.encoded
          mimeType := mt }) ∧
    (0 < img.naturalWidth → 0 < img.naturalHeight →
      getCroppedImg env img ⟨0, 0, img.width, img.height⟩ mt = .ok
        { canvasWidth := (img.naturalWidth : ℤ)
          canvasHeight := (img.naturalHeight : ℤ)
          srcX := 0
          srcY := 0
          srcW := (img.naturalWidth : ℚ)
          srcH := (img.naturalHeight : ℚ)
          base64 := env.encoded
          mimeType := mt })) := by
  constructor
  · intro hcw hch
    exact getCroppedImg_ok env img crop mt hctx henc hread hcw hch
  · intro hnW hnH
    have hW : img.width ≠ 0 := ne_of_gt hw
    have hH : img.height ≠ 0 := ne_of_gt hh
    have q1 : img.width * scaleXof img = (img.naturalWidth : ℚ) := by
      rw [scaleXof, mul_comm]
      exact div_mul_cancel₀ _ hW
    have q2 : img.height * scaleYof img = (img.naturalHeight : ℚ) := by
      rw [scaleYof, mul_comm]
      exact div_mul_cancel₀ _ hH
    have hcw : 0 < ⌊img.width * scaleXof img⌋ := by
      rw [q1, Int.floor_natCast]
      exact_mod_cast hnW
    have hch : 0 < ⌊img.height * scaleYof img⌋ := by
      rw [q2, Int.floor_natCast]
      exact_mod_cast hnH
    have main := getCroppedImg_ok env img ⟨0, 0, img.width, img.height⟩ mt hctx henc hread hcw hch
    rw [main]
    simp [q1, q2, Int.floor_natCast]

/-- Witness for `getCroppedImg_scale_spec`: an 800×600 image displayed at
400×300 (scale factors 2); a 100×50 crop at (10, 20) yields a 200×100 output
copied from (20, 40), and the full-image crop yields the natural 800×600. -/
theorem getCroppedImg_scale_spec_witness :
    getCroppedImg ⟨true, true, true, "ZW5j"⟩ ⟨800, 600, 400, 300⟩ ⟨10, 20, 100, 50⟩ ("image/png") =
      .ok ⟨200, 100, 20, 40, 200, 100, "ZW5j", "image/png"⟩ ∧
    getCroppedImg ⟨true, true, true, "ZW5j"⟩ ⟨800, 600, 400, 300⟩ ⟨0, 0, 400, 300⟩ ("image/png") =
      .ok ⟨800, 600, 0, 0, 800, 600, "ZW5j", "image/png"⟩ := by
  have T := getCroppedImg_scale_spec ⟨true, true, true, "ZW5j"⟩ ⟨800, 600, 400, 300⟩
    ⟨10, 20, 100, 50⟩ ("image/png") rfl rfl rfl (by norm_num) (by norm_num)
  have h1 := T.1 (by norm_num [scaleXof]) (by norm_num [scaleYof])
  have h2 := T.2 (by norm_num) (by norm_num)
  constructor
  · rw [h1]
    norm_num [scaleXof, scaleYof]
  · rw [h2]
    norm_num

/-- C5 counterexample: the floor-to-zero failure is not a distinct error
value: a crop whose natural-space width floors to zero produces exactly the
same canvas-empty rejection as a genuine serialization failure on a
non-empty crop — the source has no dedicated crop-region-empty error. -/
theorem crop_empty_error_not_distinct :
    getCroppedImg ⟨true, true, true, "eA=="⟩ ⟨4, 4, 4, 4⟩ ⟨0, 0, 1 / 2, 4⟩ ("image/png") =
      .error .canvasEmpty ∧
    getCroppedImg ⟨true, false, true, "eA=="⟩ ⟨4, 4, 4, 4⟩ ⟨0, 0, 4, 4⟩ ("image/png") =
      .error .canvasEmpty := by
  constructor <;> norm_num [getCroppedImg]

/-- C5 amended: a crop whose natural-space width or height floors to zero (or
below) makes `getCroppedImg` fail — with the same generic canvas-empty
rejection used when serialization yields no blob, not a distinct
crop-region-empty error — and a resolved result always has positive pixel
dimensions, so an empty image payload is never returned. -/
theorem getCroppedImg_empty_crop (env : CanvasEnv) (img : ImageElement)
    (crop : CropRect) (mt : String) :
    (env.contextAvailable = true →
      (⌊crop.width * scaleXof img⌋ ≤ 0 ∨ ⌊crop.height * scaleYof img⌋ ≤ 0) →
      getCroppedImg env img crop mt = .error .canvasEmpty) ∧
    (∀ r, getCroppedImg env img crop mt = .ok r →
      0 < r.canvasWidth ∧ 0 < r.canvasHeight) := by
  constructor
  · intro hctx hz
    simp only [scaleXof, scaleYof] at hz
    simp only [getCroppedImg]
    rw [if_neg (by simp [hctx]), if_pos ?_]
    rcases hz with h | h
    · exact Or.inl h
    · exact Or.inr (Or.inl h)
  · intro r h
    simp only [getCroppedImg] at h
    split at h
    · simp at h
    · split at h
      · simp at h
      · split at h
        · simp at h
        · next hc1 hc2 hc3 =>
          rw [Except.ok.injEq] at h
          rw [not_or, not_or] at hc2
          rw [← h]
          exact ⟨lt_of_not_le hc2.1, lt_of_not_le hc2.2.1⟩

/-- Witness for `getCroppedImg_empty_crop`: a half-pixel-wide crop on a 4×4
image fails with the canvas-empty rejection, and the successful 200×100 run
of `getCroppedImg_scale_spec_witness` has positive dimensions. -/
theorem getCroppedImg_empty_crop_witness :
    getCroppedImg ⟨true, true, true, "eQ=="⟩ ⟨4, 4, 4, 4⟩ ⟨1, 1, 1 / 2, 4⟩ ("image/png") =
      .error .canvasEmpty ∧
    (0 < (⟨200, 100, 20, 40, 200, 100, "ZW5j", "image/png"⟩ : CroppedResult).canvasWidth ∧
     0 < (⟨200, 100, 20, 40, 200, 100, "ZW5j", "image/png"⟩ : CroppedResult).canvasHeight) := by
  have T := getCroppedImg_empty_crop ⟨true, true, true, "eQ=="⟩ ⟨4, 4, 4, 4⟩
    ⟨1, 1, 1 / 2, 4⟩ ("image/png")
  have U := getCroppedImg_empty_crop ⟨true, true, true, "ZW5j"⟩ ⟨800, 600, 400, 300⟩
    ⟨10, 20, 100, 50⟩ ("image/png")
  refine ⟨T.1 rfl ?_, U.2 ⟨200, 100, 20, 40, 200, 100, "ZW5j", "image/png"⟩ ?_⟩
  · left
    norm_num [scaleXof]
  · norm_num [getCroppedImg]

/-- C3: for positive natural dimensions and a positive target aspect, the
image-load transition installs the centered initial crop, which is centered,
fits within 90% of the image's extent, has exact target pixel aspect ratio,
and lies within the displayed bounds; when a natural dimension is not
positive, the crop state is left as it was (uninitialized stays
uninitialized). -/
theorem onImageLoad_spec (s : ModalState) (aspect w h nW nH : ℚ) :
    (0 < nW → 0 < nH → 0 < aspect →
      (onImageLoad s aspect w h nW nH).crop = some (initialCrop aspect nW nH) ∧
      ((initialCrop aspect nW nH).x = (100 - (initialCrop aspect nW nH).width) / 2 ∧
       (initialCrop aspect nW nH).y = (100 - (initialCrop aspect nW nH).height) / 2) ∧
      ((initialCrop aspect nW nH).width ≤ 90 ∧ (initialCrop aspect nW nH).height ≤ 90) ∧
      (0 < (initialCrop aspect nW nH).width ∧ 0 < (initialCrop aspect nW nH).height) ∧
      (initialCrop aspect nW nH).width * nW = aspect * ((initialCrop aspect nW nH).height * nH) ∧
      (0 ≤ (initialCrop aspect nW nH).x ∧
       (initialCrop aspect nW nH).x + (initialCrop aspect nW nH).width ≤ 100 ∧
       0 ≤ (initialCrop aspect nW nH).y ∧
       (initialCrop aspect nW nH).y + (initialCrop aspect nW nH).height ≤ 100) ∧
      (∀ dW dH : ℚ, 0 ≤ dW → 0 ≤ dH →
        0 ≤ (initialCrop aspect nW nH).x / 100 * dW ∧
        (initialCrop aspect nW nH).x / 100 * dW +
          (initialCrop aspect nW nH).width / 100 * dW ≤ dW ∧
        0 ≤ (initialCrop aspect nW nH).y / 100 * dH ∧
        (initialCrop aspect nW nH).y / 100 * dH +
          (initialCrop aspect nW nH).height / 100 * dH ≤ dH)) ∧
    (¬(0 < nW ∧ 0 < nH) → (onImageLoad s aspect w h nW nH).crop = s.crop) := by
  constructor
  · intro hW hH ha
    have hWne : nW ≠ 0 := ne_of_gt hW
    have hHne : nH ≠ 0 := ne_of_gt hH
    have hane : aspect ≠ 0 := ne_of_gt ha
    have hx : (initialCrop aspect nW nH).x = (100 - (initialCrop aspect nW nH).width) / 2 := by
      simp [initialCrop, centerCropPct]
    have hy : (initialCrop aspect nW nH).y = (100 - (initialCrop aspect nW nH).height) / 2 := by
      simp [initialCrop, centerCropPct]
    have hwid : (initialCrop aspect nW nH).width
        = 100 * (min ((9 / 10) * nW) ((9 / 10) * nH * aspect)) / nW := by
      simp [initialCrop, centerCropPct, makeAspectCrop90]
    have hhei : (initialCrop aspect nW nH).height
        = 100 * ((min ((9 / 10) * nW) ((9 / 10) * nH * aspect)) / aspect) / nH := by
      simp [initialCrop, centerCropPct, makeAspectCrop90]
    set pw := min ((9 / 10) * nW) ((9 / 10) * nH * aspect) with hpwdef
    have hpw_pos : 0 < pw :=
      lt_min (mul_pos (by norm_num) hW) (mul_pos (mul_pos (by norm_num) hH) ha)
    have hpw1 : pw ≤ (9 / 10) * nW := min_le_left _ _
    have hpw2 : pw ≤ (9 / 10) * nH * aspect := min_le_right _ _
    have hwle : (initialCrop aspect nW nH).width ≤ 90 := by
      rw [hwid, div_le_iff hW]
      linarith
    have hhle : (initialCrop aspect nW nH).height ≤ 90 := by
      have hdiv : pw / aspect ≤ (9 / 10) * nH := by
        rw [div_le_iff ha]
        linarith
      rw [hhei, div_le_iff hH]
      linarith
    have hwpos : 0 < (initialCrop aspect nW nH).width := by
      rw [hwid]
      exact div_pos (by linarith) hW
    have hhpos : 0 < (initialCrop aspect nW nH).height := by
      rw [hhei]
      exact div_pos (mul_pos (by norm_num) (div_pos hpw_pos ha)) hH
    have hasp : (initialCrop aspect nW nH).width * nW
        = aspect * ((initialCrop aspect nW nH).height * nH) := by
      rw [hwid, hhei]
      field_simp
      ring
    have hx0 : 0 ≤ (initialCrop aspect nW nH).x := by
      rw [hx]; linarith
    have hxw : (initialCrop aspect nW nH).x + (initialCrop aspect nW nH).width ≤ 100 := by
      rw [hx]; linarith
    have hy0 : 0 ≤ (initialCrop aspect nW nH).y := by
      rw [hy]; linarith
    have hyh : (initialCrop aspect nW nH).y + (initialCrop aspect nW nH).height ≤ 100 := by
      rw [hy]; linarith
    refine ⟨?_, ⟨hx, hy⟩, ⟨hwle, hhle⟩, ⟨hwpos, hhpos⟩, hasp, ⟨hx0, hxw, hy0, hyh⟩, ?_⟩
    · simp [onImageLoad, hW, hH, initialCrop]
    · intro dW dH hdW hdH
      refine ⟨?_, ?_, ?_, ?_⟩
      · exact mul_nonneg (div_nonneg hx0 (by norm_num)) hdW
      · have e : (initialCrop aspect nW nH).x / 100 * dW +
            (initialCrop aspect nW nH).width / 100 * dW
            = ((initialCrop aspect nW nH).x + (initialCrop aspect nW nH).width) / 100 * dW := by
          ring
        rw [e]
        have h1 : ((initialCrop aspect nW nH).x + (initialCrop aspect nW nH).width) / 100 ≤ 1 := by
          rw [div_le_one (by norm_num)]
          exact hxw
        calc ((initialCrop aspect nW nH).x + (initialCrop aspect nW nH).width) / 100 * dW
            ≤ 1 * dW := mul_le_mul_of_nonneg_right h1 hdW
          _ = dW := one_mul dW
      · exact mul_nonneg (div_nonneg hy0 (by norm_num)) hdH
      · have e : (initialCrop aspect nW nH).y / 100 * dH +
            (initialCrop aspect nW nH).height / 100 * dH
            = ((initialCrop aspect nW nH).y + (initialCrop aspect nW nH).height) / 100 * dH := by
          ring
        rw [e]
        have h1 : ((initialCrop aspect nW nH).y + (initialCrop aspect nW nH).height) / 100 ≤ 1 := by
          rw [div_le_one (by norm_num)]
          exact hyh
        calc ((initialCrop aspect nW nH).y + (initialCrop aspect nW nH).height) / 100 * dH
            ≤ 1 * dH := mul_le_mul_of_nonneg_right h1 hdH
          _ = dH := one_mul dH
  · intro hneg
    simp only [onImageLoad]
    rw [if_neg hneg]

/-- Witness for `onImageLoad_spec` at a 1000×1000 image with the 16:9 aspect:
the crop is installed and its pixel width/height ratio is exactly 16:9. -/
theorem onImageLoad_spec_witness :
    (onImageLoad saveModalState (16 / 9) 562 562 1000 1000).crop =
      some (initialCrop (16 / 9) 1000 1000) ∧
    (initialCrop (16 / 9) 1000 1000).width * 1000 =
      (16 / 9) * ((initialCrop (16 / 9) 1000 1000).height * 1000) := by
  obtain ⟨h1, h2, h3, h4, h5, h6, h7⟩ :=
    (onImageLoad_spec saveModalState (16 / 9) 562 562 1000 1000).1
      (by norm_num) (by norm_num) (by norm_num)
  exact ⟨h1, h5⟩

/-- C4: changing the aspect ratio recomputes the crop by exactly the same
computation as the image-load transition, discarding the prior rectangle
(including one produced by a user drag): the result depends only on the
natural dimensions and the new aspect, and repeating the same change is
idempotent. -/
theorem aspectEffect_spec (s : ModalState) (c : CropRect) (aspect nW nH : ℚ)
    (hW : 0 < nW) (hH : 0 < nH) :
    (aspectEffect (onDragChange s c) true aspect nW nH).crop = some (initialCrop aspect nW nH) ∧
    (aspectEffect s true aspect nW nH).crop = some (initialCrop aspect nW nH) ∧
    (aspectEffect s true aspect nW nH).crop = (onImageLoad s aspect s.imgW s.imgH nW nH).crop ∧
    aspectEffect (aspectEffect s true aspect nW nH) true aspect nW nH =
      aspectEffect s true aspect nW nH := by
  refine ⟨?_, ?_, ?_, ?_⟩ <;> simp [aspectEffect, onDragChange, onImageLoad, initialCrop, hW, hH]

/-- Witness for `aspectEffect_spec`: a dragged crop is discarded by a 3:4
aspect change on an 800×600 image, and the change is idempotent. -/
theorem aspectEffect_spec_witness :
    (aspectEffect (onDragChange saveModalState ⟨1, 2, 3, 4⟩) true (3 / 4) 800 600).crop =
      some (initialCrop (3 / 4) 800 600) ∧
    aspectEffect (aspectEffect saveModalState true (3 / 4) 800 600) true (3 / 4) 800 600 =
      aspectEffect saveModalState true (3 / 4) 800 600 := by
  have T := aspectEffect_spec saveModalState ⟨1, 2, 3, 4⟩ (3 / 4) 800 600
    (by norm_num) (by norm_num)
  exact ⟨T.1, T.2.2.2⟩

/-- C8: a zoom change with scale in [1, 3] leaves the crop rectangle and the
stored image size untouched; it only scales the displayed dimensions, which
changes the scale factors `getCroppedImg` uses at save time. -/
theorem onZoomChange_spec (s : ModalState) (z : ℚ) (nW nH : ℕ)
    (h1 : 1 ≤ z) (h3 : z ≤ 3) :
    (onZoomChange s z).crop = s.crop ∧
    (onZoomChange s z).imgW = s.imgW ∧
    (onZoomChange s z).imgH = s.imgH ∧
    displayedWidth (onZoomChange s z) = s.imgW * z ∧
    displayedHeight (onZoomChange s z) = s.imgH * z ∧
    scaleXof (modalImageElement (onZoomChange s z) nW nH) = (nW : ℚ) / (s.imgW * z) ∧
    scaleYof (modalImageElement (onZoomChange s z) nW nH) = (nH : ℚ) / (s.imgH * z) :=
  ⟨rfl, rfl, rfl, rfl, rfl, rfl, rfl⟩

/-- Witness for `onZoomChange_spec`: zooming to 2 leaves the crop unchanged
and halves nothing but the scale factor at save time. -/
theorem onZoomChange_spec_witness :
    (onZoomChange saveModalState 2).crop = saveModalState.crop ∧
    scaleXof (modalImageElement (onZoomChange saveModalState 2) 100 100) =
      ((100 : ℕ) : ℚ) / (saveModalState.imgW * 2) := by
  have T := onZoomChange_spec saveModalState 2 100 100 (by norm_num) (by norm_num)
  exact ⟨T.1, T.2.2.2.2.2.1⟩
